import Mathlib

/-!
Shallow embedding of `src/verification_system.py` (class `VerificationSystem`).

Modelling conventions:
* Python floats that hold distances are modelled as `ℚ`; the value `np.inf`
  is modelled by a dedicated constructor of `Dist`.
* A pandas `DataFrame` row of the evaluation table (columns `image_path`,
  `is_access_granted`, `distance`) is the structure `VerificationRecord`;
  a whole table is a `List VerificationRecord` in row order.
* Python exceptions are modelled with `Except PyError`: a function that can
  raise returns `Except PyError α` and the raising paths return `.error`.
* The external collaborators (DeepFace matcher, sklearn, matplotlib) are
  modelled at their interface boundary: the matcher is an oracle parameter
  `matcher : String → Except PyError (List MatchRow)` standing for
  `DeepFace.find(img_path, db_path, threshold, enforce_detection=False)[0]`
  (the first DataFrame of the returned list; an exception inside DeepFace is
  `.error`); sklearn's `confusion_matrix(...).ravel()` is transcribed as
  `confusionRavel` below, following sklearn's documented semantics (labels
  are the sorted distinct values occurring in `y_true`/`y_pred`; entry
  `(i, j)` counts samples with true label `i` and predicted label `j`;
  row-major ravel). `roc_curve` and all `plt` calls only feed the plot, whose
  rendering is external; the data handed to them (the remapped distance
  vector) is modelled by `sweptScores`.
-/

namespace VerificationSystem

/-- The kinds of Python exceptions the embedded code can raise. -/
inductive PyError : Type
  | matcherError        -- an exception escaping DeepFace.find (e.g. unreadable image)
  | indexError          -- IndexError, e.g. Path(x).parts[3] on a short path
  | nameError           -- NameError: an unbound global name
  | valueError          -- ValueError, e.g. tuple unpacking of a wrong-length array
  | zeroDivisionError   -- ZeroDivisionError from x / 0
  deriving DecidableEq, Repr

/-- A distance cell of the evaluation table: a finite float or `np.inf`. -/
inductive Dist : Type
  | inf
  | val (q : ℚ)
  deriving DecidableEq, Repr

/-- One row of the DataFrame `DeepFace.find(...)[0]`: the matched gallery
image's path (as its `pathlib.Path(...).parts` list) and the match distance
(finite: DeepFace only reports matches it scored). Rows come best-first. -/
structure MatchRow : Type where
  identity : List String
  distance : ℚ
  deriving DecidableEq, Repr

/-- One row of the evaluation table built by `verify_multiple_users`. -/
structure VerificationRecord : Type where
  image_path : String
  is_access_granted : Bool
  distance : Dist
  deriving DecidableEq, Repr

/-- The value `verify_user` returns in its second component: `np.inf` from the
empty-result branch, or the whole pandas Series `faces_found[0]["distance"]`
(the full distance column, one entry per row) from the non-empty branch. -/
inductive VUDistance : Type
  | inf
  | series (ds : List ℚ)
  deriving DecidableEq, Repr

/-- `faces_found[0]["identity"].apply(lambda x: Path(x).parts[3])`: take path
segment 3 of every row's identity path; any too-short path raises IndexError. -/
def predictedUserNames (faces_found : List MatchRow) : Except PyError (List String) :=
  faces_found.mapM (fun r =>
    match r.identity[3]? with
    | some s => Except.ok s
    | none => Except.error PyError.indexError)

/-- `VerificationSystem.verify_user`, lines 59–85, applied to the matcher's
result `faces_found[0]`. Empty result: return `(False, np.inf)`. Otherwise
`predicted_user_name` is entry `[0]` of the applied identity Series, the
verdict is `user_name == predicted_user_name`, and the second component is
the Series `faces_found[0]["distance"]` (the whole column). -/
def verify_user (user_name : String) (faces_found : List MatchRow) :
    Except PyError (Bool × VUDistance) :=
  if faces_found.isEmpty then
    Except.ok (false, VUDistance.inf)
  else
    match predictedUserNames faces_found with
    | Except.error e => Except.error e
    | Except.ok names =>
      match names.head? with
      | none => Except.error PyError.indexError
      | some predicted_user_name =>
          Except.ok (user_name == predicted_user_name,
            VUDistance.series (faces_found.map (·.distance)))

/-- `verify_user` including the `DeepFace.find` call it starts with: the
matcher oracle is invoked on the photo path and an exception escaping it
propagates (there is no try/except anywhere in the class). -/
def verifyUserFull (matcher : String → Except PyError (List MatchRow))
    (user_name user_photo_path : String) : Except PyError (Bool × VUDistance) :=
  match matcher user_photo_path with
  | Except.error e => Except.error e
  | Except.ok faces_found => verify_user user_name faces_found

/-- `os.path.join` as used on the population paths. -/
def joinPath (a b : String) : String := a ++ "/" ++ b

/-- Placing `verify_user`'s second component into the single-row DataFrame
`pd.DataFrame({..., "distance": distance}, index=[0])`: the scalar `np.inf`
is broadcast; a Series is aligned on index label `0`, i.e. its first entry
(DeepFace returns the frame sorted by distance with a reset 0-based index);
an empty Series cannot occur (`verify_user` only returns `.series` for a
non-empty result set, see `verify_user_series_ne_nil`). -/
def storeDistance : VUDistance → Dist
  | VUDistance.inf => Dist.inf
  | VUDistance.series [] => Dist.inf
  | VUDistance.series (q :: _) => Dist.val q

/-- Processing of one photo inside the nested loops of
`verify_multiple_users`, lines 98–114: call `verify_user` and build the
one-row DataFrame `df_user`. -/
def processQuery (matcher : String → Except PyError (List MatchRow))
    (incoming_users_path : String) (q : String × String) :
    Except PyError VerificationRecord :=
  let path := joinPath (joinPath incoming_users_path q.1) q.2
  match verifyUserFull matcher q.1 path with
  | Except.error e => Except.error e
  | Except.ok (is_access_granted, distance) =>
      Except.ok ⟨path, is_access_granted, storeDistance distance⟩

/-- One `pd.concat([df_users, df_user], ignore_index=True)` step of the
loop body: append the new row to the table so far, or propagate the
exception the row's processing raised. -/
def appendRow (df_users : List VerificationRecord)
    (q : Except PyError VerificationRecord) :
    Except PyError (List VerificationRecord) :=
  match q with
  | Except.error e => Except.error e
  | Except.ok row => Except.ok (df_users ++ [row])

/-- `VerificationSystem.verify_multiple_users`, lines 87–118. The directory
tree under `incoming_users_path` is passed as `listing`: the identities in
`os.listdir` order, each with its photo file names in `os.listdir` order.
The table starts empty and each photo's one-row frame is appended by
`appendRow`; the nested loops are the two `foldlM`. `tqdm` is only progress
reporting and has no effect on the result. -/
def verify_multiple_users (matcher : String → Except PyError (List MatchRow))
    (incoming_users_path : String) (listing : List (String × List String)) :
    Except PyError (List VerificationRecord) :=
  listing.foldlM (fun df_users entry =>
    entry.2.foldlM (fun df_users user_photo =>
      appendRow df_users
        (processQuery matcher incoming_users_path (entry.1, user_photo))) df_users) []

/-- The flattened iteration order of the nested loops: identities in listing
order, then photos within each identity in listing order. -/
def flatQueries (listing : List (String × List String)) : List (String × String) :=
  listing.flatMap (fun entry => entry.2.map (fun p => (entry.1, p)))

/-- `VerificationSystem.calculate_access_granted_rate`, lines 120–124:
`df_users["is_access_granted"].sum() / len(df_users)`. On the empty table the
sum is the Python int `0` and `0 / 0` raises ZeroDivisionError. -/
def calculate_access_granted_rate (df_users : List VerificationRecord) :
    Except PyError ℚ :=
  let s : ℕ := df_users.foldl (fun acc r => acc + (if r.is_access_granted then 1 else 0)) 0
  if df_users.length = 0 then Except.error PyError.zeroDivisionError
  else Except.ok ((s : ℚ) / (df_users.length : ℚ))

/-! sklearn's `confusion_matrix(y_true, y_pred).ravel()`, shared by
`draw_ROC_curve` (line 157) and `calculate_far_frr` (line 180). -/

/-- The label axis sklearn uses: the sorted distinct values occurring in
`y_true` or `y_pred` (for booleans, `False < True`). -/
def cmLabels (yTrue yPred : List Bool) : List Bool :=
  (if (yTrue ++ yPred).contains false then [false] else []) ++
  (if (yTrue ++ yPred).contains true then [true] else [])

/-- Entry `(t, p)` of the confusion matrix: the number of samples with true
label `t` and predicted label `p` (samples are paired positionally). -/
def cmCount (yTrue yPred : List Bool) (t p : Bool) : ℕ :=
  ((yTrue.zip yPred).filter (fun s => s.1 == t && s.2 == p)).length

/-- `confusion_matrix(y_true, y_pred).ravel()`: the matrix rows are indexed
by true label, columns by predicted label, both in `cmLabels` order, and the
ravel is row-major. Its length is 0, 1 or 4 depending on how many distinct
labels occur. -/
def confusionRavel (yTrue yPred : List Bool) : List ℕ :=
  (cmLabels yTrue yPred).flatMap (fun t =>
    (cmLabels yTrue yPred).map (fun p => cmCount yTrue yPred t p))

/-- The Python unpacking `tn, fp, fn, tp = (...).ravel()`: a ValueError
unless the raveled array has exactly four entries. -/
def confusionUnpack (l : List ℕ) : Except PyError (ℕ × ℕ × ℕ × ℕ) :=
  match l with
  | [tn, fp, fn, tp] => Except.ok (tn, fp, fn, tp)
  | _ => Except.error PyError.valueError

/-! `VerificationSystem.draw_ROC_curve`, lines 126–160. Its own copies of the
concatenation and label construction (lines 137–144). -/

/-- Line 137: `df_concatenated = pd.concat([df_users_authorized, df_users_unauthorized], axis=0)`. -/
def rocConcatenated (df_users_authorized df_users_unauthorized : List VerificationRecord) :
    List VerificationRecord :=
  df_users_authorized ++ df_users_unauthorized

/-- Lines 140–142: `true_labels = [True] * len(authorized) + [False] * len(unauthorized)`. -/
def rocTrueLabels (df_users_authorized df_users_unauthorized : List VerificationRecord) :
    List Bool :=
  List.replicate df_users_authorized.length true ++
    List.replicate df_users_unauthorized.length false

/-- Line 143: `predicted_labels = df_concatenated["is_access_granted"].to_list()`. -/
def rocPredictedLabels (df_users_authorized df_users_unauthorized : List VerificationRecord) :
    List Bool :=
  (rocConcatenated df_users_authorized df_users_unauthorized).map (·.is_access_granted)

/-- Lines 145–147: `np.where(np.isinf(distances), verification_system.acceptance_threshold, distances)`
with the threshold value already in hand: every `np.inf` cell becomes the
threshold, finite cells are unchanged (the result is a float vector). -/
def remapDistances (threshold : ℚ) (distances : List Dist) : List ℚ :=
  distances.map (fun d =>
    match d with
    | Dist.inf => threshold
    | Dist.val q => q)

/-- The score vector `draw_ROC_curve` hands to `sklearn.roc_curve` (and hence
to the plot): the concatenated `distance` column after the `np.where` remap.
Needs the value of the module-global name `verification_system` (see
`draw_ROC_curve`). -/
def sweptScores (acceptance_threshold : ℚ)
    (df_users_authorized df_users_unauthorized : List VerificationRecord) : List ℚ :=
  remapDistances acceptance_threshold
    ((rocConcatenated df_users_authorized df_users_unauthorized).map (·.distance))

/-- `VerificationSystem.draw_ROC_curve`, lines 126–160. The method is a
`@staticmethod`; line 146 reads `verification_system.acceptance_threshold`
where `verification_system` is a module-global name that
`verification_system.py` never binds — the lookup is modelled by the
parameter `globalVS : Option ℚ` (the threshold of whatever object the global
names, `none` when the name is unbound, as in the module as shipped), and an
unbound name raises NameError at line 146, before the sweep and the
confusion matrix. `roc_curve` and the `plt` calls only produce the plot
(external); the confusion matrix unpacking is lines 157–159. -/
def draw_ROC_curve (globalVS : Option ℚ)
    (df_users_authorized df_users_unauthorized : List VerificationRecord) :
    Except PyError (ℕ × ℕ × ℕ × ℕ) :=
  let true_labels := rocTrueLabels df_users_authorized df_users_unauthorized
  let predicted_labels := rocPredictedLabels df_users_authorized df_users_unauthorized
  match globalVS with
  | none => Except.error PyError.nameError
  | some acceptance_threshold =>
    let _distances := sweptScores acceptance_threshold
      df_users_authorized df_users_unauthorized
    confusionUnpack (confusionRavel true_labels predicted_labels)

/-! `VerificationSystem.calculate_far_frr`, lines 162–188. Its own copies of
the concatenation and label construction (lines 173–179). -/

/-- Line 173: `df_concatenated = pd.concat([df_users_authorized, df_users_unauthorized], axis=0)`. -/
def farFrrConcatenated (df_users_authorized df_users_unauthorized : List VerificationRecord) :
    List VerificationRecord :=
  df_users_authorized ++ df_users_unauthorized

/-- Lines 176–178: `true_labels = [True] * len(authorized) + [False] * len(unauthorized)`. -/
def farFrrTrueLabels (df_users_authorized df_users_unauthorized : List VerificationRecord) :
    List Bool :=
  List.replicate df_users_authorized.length true ++
    List.replicate df_users_unauthorized.length false

/-- Line 179: `predicted_labels = df_concatenated["is_access_granted"].to_list()`. -/
def farFrrPredictedLabels (df_users_authorized df_users_unauthorized : List VerificationRecord) :
    List Bool :=
  (farFrrConcatenated df_users_authorized df_users_unauthorized).map (·.is_access_granted)

/-- The `(tn, fp, fn, tp)` tuple `calculate_far_frr` unpacks at lines 180–182. -/
def farFrrCounts (df_users_authorized df_users_unauthorized : List VerificationRecord) :
    Except PyError (ℕ × ℕ × ℕ × ℕ) :=
  confusionUnpack (confusionRavel
    (farFrrTrueLabels df_users_authorized df_users_unauthorized)
    (farFrrPredictedLabels df_users_authorized df_users_unauthorized))

/-- `VerificationSystem.calculate_far_frr`, lines 162–188:
`tpr = tp / (tp + fn)`, `fpr = fp / (fp + tn)`, `far = 1 - tpr`, `frr = fpr`.
Python `/` raises ZeroDivisionError on a zero denominator (`tpr` is computed
first). -/
def calculate_far_frr (df_users_authorized df_users_unauthorized : List VerificationRecord) :
    Except PyError (ℚ × ℚ) :=
  match farFrrCounts df_users_authorized df_users_unauthorized with
  | Except.error e => Except.error e
  | Except.ok (tn, fp, fn, tp) =>
    if (tp : ℚ) + (fn : ℚ) = 0 then Except.error PyError.zeroDivisionError
    else if (fp : ℚ) + (tn : ℚ) = 0 then Except.error PyError.zeroDivisionError
    else
      let tpr := (tp : ℚ) / ((tp : ℚ) + (fn : ℚ))
      let fpr := (fp : ℚ) / ((fp : ℚ) + (tn : ℚ))
      Except.ok (1 - tpr, fpr)

/-! Concrete populations used to exercise the theorems: the worked scenario
of the specification, §8 (authorized `[(granted, 0.3), (denied, 0.9)]`,
unauthorized `[(denied, 0.8), (granted, 0.4)]`, threshold `0.5`), and a
small population containing an infinite distance. -/

/-- Spec §8 scenario, authorized population. -/
def scnAuth : List VerificationRecord :=
  [⟨"auth/1/a.jpg", true, Dist.val (3/10)⟩, ⟨"auth/2/b.jpg", false, Dist.val (9/10)⟩]

/-- Spec §8 scenario, unauthorized population. -/
def scnUnauth : List VerificationRecord :=
  [⟨"unauth/101/c.jpg", false, Dist.val (8/10)⟩, ⟨"unauth/102/d.jpg", true, Dist.val (4/10)⟩]

/-- A population holding an infinite-distance (no-match) record. -/
def infAuth : List VerificationRecord :=
  [⟨"auth/3/e.jpg", false, Dist.inf⟩, ⟨"auth/4/f.jpg", true, Dist.val (3/10)⟩]

/-- A second population for the infinite-distance example. -/
def infUnauth : List VerificationRecord :=
  [⟨"unauth/103/g.jpg", false, Dist.val (8/10)⟩]

/-- `verify_user` only returns a `series` distance for a non-empty result
set, so the Series always has an entry at index 0: the `series []` fallback
of `storeDistance` is unreachable. -/
lemma verify_user_series_ne_nil (user_name : String) (faces_found : List MatchRow)
    (b : Bool) (ds : List ℚ)
    (h : verify_user user_name faces_found = Except.ok (b, VUDistance.series ds)) :
    ds ≠ [] := by
  unfold verify_user at h
  split at h
  case isTrue => simp at h
  case isFalse hemp =>
    split at h
    · simp at h
    · split at h
      · simp at h
      · simp only [Except.ok.injEq, Prod.mk.injEq, VUDistance.series.injEq] at h
        intro hnil
        rw [← h.2, List.map_eq_nil_iff] at hnil
        subst hnil
        simp at hemp

/-- C2: counterexample and context. The claim says `draw_ROC_curve` replaces
every infinite distance by the configured acceptance threshold of the
`VerificationSystem` instance that produced the records. The method is a
`@staticmethod` with no access to any instance: line 146 reads
`verification_system.acceptance_threshold` through the module-global name
`verification_system`, which the module never binds, so with the module as
shipped the call raises NameError before the sweep. The second conjunct
records the remap the line would perform on the same records once a global
with threshold `1/2` is in scope: `np.inf` becomes the threshold and finite
distances pass through unchanged. -/
theorem claim_C2_roc_threshold_name_error :
    draw_ROC_curve none infAuth infUnauth = Except.error PyError.nameError
    ∧ sweptScores (1/2) infAuth infUnauth = [1/2, 3/10, 8/10] :=
  ⟨rfl, rfl⟩

/-- Sum of the granted indicator column equals the `countP` of granted rows. -/
lemma grant_sum_eq_countP (df : List VerificationRecord) (n : ℕ) :
    df.foldl (fun acc r => acc + (if r.is_access_granted then 1 else 0)) n =
      n + df.countP (·.is_access_granted) := by
  induction df generalizing n with
  | nil => simp
  | cons r t ih =>
    by_cases hr : r.is_access_granted
    · simp [List.countP_cons, hr, ih]
      omega
    · simp [List.countP_cons, hr, ih]

/-- C3: `calculate_access_granted_rate` returns
`granted_count / total_count` on a non-empty population and raises a
ZeroDivisionError-kind error on the empty population (the Python expression
is `0 / 0` there), never silently `0` or NaN. -/
theorem claim_C3_grant_rate (df_users : List VerificationRecord) :
    (df_users ≠ [] →
      calculate_access_granted_rate df_users =
        Except.ok ((df_users.countP (·.is_access_granted) : ℚ) / (df_users.length : ℚ)))
    ∧ (df_users = [] →
      calculate_access_granted_rate df_users = Except.error PyError.zeroDivisionError) := by
  constructor
  · intro hne
    unfold calculate_access_granted_rate
    rw [if_neg (by simpa [List.length_eq_zero] using hne)]
    rw [grant_sum_eq_countP df_users 0]
    simp
  · intro he
    subst he
    rfl

/-- Witness for C3: a single all-granted record gives rate 1, the empty
population raises the division error. -/
theorem claim_C3_witness :
    calculate_access_granted_rate [⟨"p.jpg", true, Dist.val (3/10)⟩] = Except.ok 1
    ∧ calculate_access_granted_rate ([] : List VerificationRecord) =
        Except.error PyError.zeroDivisionError := by
  constructor
  · have h := (claim_C3_grant_rate [⟨"p.jpg", true, Dist.val (3/10)⟩]).1 (by simp)
    rw [h]
    norm_num
  · exact (claim_C3_grant_rate []).2 rfl

/-- C4: an empty match result set — the matcher's encoding of an infinite
distance / no match — makes `verify_user` return `(False, np.inf)`,
whatever the claimed identity. -/
theorem claim_C4_no_match_denied (user_name : String) :
    verify_user user_name [] = Except.ok (false, VUDistance.inf) := rfl

/-- C5: on a non-empty match result, the verdict is exactly
`user_name == predicted_user_name`, where the predicted name is path
segment 3 of the best (first) match and does not depend on any distance. -/
theorem claim_C5_granted_iff_identity
    (user_name predicted_user_name : String)
    (faces_found : List MatchRow) (names : List String)
    (hne : faces_found ≠ [])
    (hnames : predictedUserNames faces_found = Except.ok names)
    (hhead : names.head? = some predicted_user_name) :
    verify_user user_name faces_found =
      Except.ok (user_name == predicted_user_name,
        VUDistance.series (faces_found.map (·.distance))) := by
  unfold verify_user
  rw [if_neg (by simpa using hne)]
  split
  next e heq =>
    rw [hnames] at heq
    cases heq
  next names2 heq =>
    rw [hnames] at heq
    injection heq with heq'
    subst heq'
    split
    next hh =>
      rw [hhead] at hh
      cases hh
    next pn hh =>
      rw [hhead] at hh
      injection hh with hh'
      subst hh'
      rfl

/-- Witness for C5: one gallery match under `.../1/a.jpg` claimed as "1". -/
theorem claim_C5_witness :
    verify_user "1" [⟨["data", "database", "authorized_users", "1", "a.jpg"], 3/10⟩] =
      Except.ok (("1" == "1"), VUDistance.series [3/10]) :=
  claim_C5_granted_iff_identity "1" "1"
    [⟨["data", "database", "authorized_users", "1", "a.jpg"], 3/10⟩] ["1"]
    (by simp) rfl rfl

/-- C6: the second component `verify_user` returns in the non-empty branch
is `faces_found[0]["distance"]` — the whole pandas Series (every row's
distance), not the single best-match float its own annotation
`Tuple[bool, float]` promises: on a two-row result both distances come
back. -/
theorem claim_C6_distance_is_whole_series :
    verify_user "1"
      [⟨["data", "database", "authorized_users", "1", "a.jpg"], 3/10⟩,
       ⟨["data", "database", "authorized_users", "2", "b.jpg"], 9/10⟩] =
      Except.ok (true, VUDistance.series [3/10, 9/10]) := rfl

/-! Lemmas about the embedded `confusion_matrix(...).ravel()` and the
four-way unpacking. -/

/-- A successful four-way unpacking pins the raveled list down. -/
lemma confusionUnpack_ok (l : List ℕ) (tn fp fn tp : ℕ)
    (h : confusionUnpack l = Except.ok (tn, fp, fn, tp)) :
    l = [tn, fp, fn, tp] := by
  unfold confusionUnpack at h
  split at h
  · simp only [Except.ok.injEq, Prod.mk.injEq] at h
    obtain ⟨h1, h2, h3, h4⟩ := h
    subst h1; subst h2; subst h3; subst h4
    rfl
  · cases h

/-- The sklearn label axis is one of four explicit lists. -/
lemma cmLabels_cases (yTrue yPred : List Bool) :
    cmLabels yTrue yPred = [] ∨ cmLabels yTrue yPred = [false] ∨
    cmLabels yTrue yPred = [true] ∨ cmLabels yTrue yPred = [false, true] := by
  unfold cmLabels
  by_cases hf : (yTrue ++ yPred).contains false = true
  · by_cases ht : (yTrue ++ yPred).contains true = true
    · rw [if_pos hf, if_pos ht]; simp
    · rw [if_pos hf, if_neg ht]; simp
  · by_cases ht : (yTrue ++ yPred).contains true = true
    · rw [if_neg hf, if_pos ht]; simp
    · rw [if_neg hf, if_neg ht]; simp

/-- A raveled confusion matrix with four entries comes from the two-label
axis, and its entries are the four `(true label, predicted label)` counts in
sklearn's row-major order `TN, FP, FN, TP`. -/
lemma confusionRavel_eq_four (yTrue yPred : List Bool) (a b c d : ℕ)
    (h : confusionRavel yTrue yPred = [a, b, c, d]) :
    a = cmCount yTrue yPred false false ∧ b = cmCount yTrue yPred false true ∧
    c = cmCount yTrue yPred true false ∧ d = cmCount yTrue yPred true true := by
  rcases cmLabels_cases yTrue yPred with h0 | h0 | h0 | h0 <;>
    rw [confusionRavel, h0] at h <;> simp_all

/-- Each sample pair lands in exactly one of the four boolean buckets. -/
lemma filter_four_split (l : List (Bool × Bool)) :
    (l.filter (fun s => !s.1 && !s.2)).length +
    (l.filter (fun s => !s.1 && s.2)).length +
    (l.filter (fun s => s.1 && !s.2)).length +
    (l.filter (fun s => s.1 && s.2)).length = l.length := by
  induction l with
  | nil => rfl
  | cons s t ih =>
    rcases s with ⟨x, y⟩
    cases x <;> cases y <;> simp [List.filter_cons] <;> omega

/-- The four confusion counts add up to the number of paired samples. -/
lemma cmCount_total (yTrue yPred : List Bool) :
    cmCount yTrue yPred false false + cmCount yTrue yPred false true +
    cmCount yTrue yPred true false + cmCount yTrue yPred true true =
    (yTrue.zip yPred).length := by
  unfold cmCount
  simpa using filter_four_split (yTrue.zip yPred)

/-- The true-label and predicted-label vectors of `draw_ROC_curve` both have
one entry per record of the two populations. -/
lemma rocLabel_lengths (auth unauth : List VerificationRecord) :
    (rocTrueLabels auth unauth).length = auth.length + unauth.length ∧
    (rocPredictedLabels auth unauth).length = auth.length + unauth.length := by
  constructor
  · simp [rocTrueLabels]
  · simp [rocPredictedLabels, rocConcatenated]

/-- C7: whenever `draw_ROC_curve` returns a confusion tuple, the four counts
sum exactly to `len(df_users_authorized) + len(df_users_unauthorized)`. -/
theorem claim_C7_counts_sum (globalVS : Option ℚ)
    (df_users_authorized df_users_unauthorized : List VerificationRecord)
    (tn fp fn tp : ℕ)
    (h : draw_ROC_curve globalVS df_users_authorized df_users_unauthorized =
      Except.ok (tn, fp, fn, tp)) :
    tn + fp + fn + tp =
      df_users_authorized.length + df_users_unauthorized.length := by
  unfold draw_ROC_curve at h
  cases globalVS with
  | none => cases h
  | some thr =>
    have hl := confusionUnpack_ok _ tn fp fn tp h
    obtain ⟨h1, h2, h3, h4⟩ := confusionRavel_eq_four _ _ tn fp fn tp hl
    subst h1; subst h2; subst h3; subst h4
    have hs := cmCount_total
      (rocTrueLabels df_users_authorized df_users_unauthorized)
      (rocPredictedLabels df_users_authorized df_users_unauthorized)
    obtain ⟨lt, lp⟩ := rocLabel_lengths df_users_authorized df_users_unauthorized
    rw [List.length_zip, lt, lp, Nat.min_self] at hs
    omega

/-- Witness for C7 on the spec §8 scenario: counts `(1, 1, 1, 1)` against
two records per population. -/
theorem claim_C7_witness :
    (1 : ℕ) + 1 + 1 + 1 = scnAuth.length + scnUnauth.length :=
  claim_C7_counts_sum (some (1/2)) scnAuth scnUnauth 1 1 1 1 rfl

/-- C1: whenever `calculate_far_frr` succeeds — its confusion tuple
`(tn, fp, fn, tp)` comes out of the concatenated-populations derivation
`farFrrCounts` and neither class is empty — it returns exactly
`FAR = 1 − TP/(TP+FN)` and `FRR = FP/(FP+TN)`; and `TPR = 1 − FAR` holds as
an exact algebraic identity. -/
theorem claim_C1_far_frr_exact
    (df_users_authorized df_users_unauthorized : List VerificationRecord)
    (tn fp fn tp : ℕ)
    (hc : farFrrCounts df_users_authorized df_users_unauthorized =
      Except.ok (tn, fp, fn, tp))
    (h1 : tp + fn ≠ 0) (h2 : fp + tn ≠ 0) :
    calculate_far_frr df_users_authorized df_users_unauthorized =
      Except.ok (1 - (tp : ℚ) / ((tp : ℚ) + (fn : ℚ)),
        (fp : ℚ) / ((fp : ℚ) + (tn : ℚ)))
    ∧ (tp : ℚ) / ((tp : ℚ) + (fn : ℚ)) =
        1 - (1 - (tp : ℚ) / ((tp : ℚ) + (fn : ℚ))) := by
  have h1' : ((tp : ℚ) + (fn : ℚ)) ≠ 0 := by
    rw [← Nat.cast_add]
    exact Nat.cast_ne_zero.mpr h1
  have h2' : ((fp : ℚ) + (tn : ℚ)) ≠ 0 := by
    rw [← Nat.cast_add]
    exact Nat.cast_ne_zero.mpr h2
  refine ⟨?_, by ring⟩
  unfold calculate_far_frr
  simp only [hc]
  rw [if_neg h1', if_neg h2']

/-- Witness for C1 on the spec §8 scenario: counts `(1, 1, 1, 1)` give
`FAR = FRR = 1/2`. -/
theorem claim_C1_witness :
    calculate_far_frr scnAuth scnUnauth = Except.ok (1/2, 1/2) := by
  have h := (claim_C1_far_frr_exact scnAuth scnUnauth 1 1 1 1 rfl
    (by decide) (by decide)).1
  rw [h]
  norm_num

/-- C10: when `draw_ROC_curve` and `calculate_far_frr` both succeed on the
same pair of populations, the tuple `draw_ROC_curve` returns is exactly the
`(tn, fp, fn, tp)` that `calculate_far_frr` unpacks from its own
concatenated-populations derivation, and its FAR/FRR are the formulas over
that very tuple. -/
theorem claim_C10_same_confusion (globalVS : Option ℚ)
    (df_users_authorized df_users_unauthorized : List VerificationRecord)
    (tn fp fn tp : ℕ) (far frr : ℚ)
    (h1 : draw_ROC_curve globalVS df_users_authorized df_users_unauthorized =
      Except.ok (tn, fp, fn, tp))
    (h2 : calculate_far_frr df_users_authorized df_users_unauthorized =
      Except.ok (far, frr)) :
    farFrrCounts df_users_authorized df_users_unauthorized =
      Except.ok (tn, fp, fn, tp)
    ∧ far = 1 - (tp : ℚ) / ((tp : ℚ) + (fn : ℚ))
    ∧ frr = (fp : ℚ) / ((fp : ℚ) + (tn : ℚ)) := by
  unfold draw_ROC_curve at h1
  cases globalVS with
  | none => cases h1
  | some thr =>
    have hf : farFrrCounts df_users_authorized df_users_unauthorized =
        Except.ok (tn, fp, fn, tp) := h1
    refine ⟨hf, ?_⟩
    unfold calculate_far_frr at h2
    simp only [hf] at h2
    split at h2
    · cases h2
    · split at h2
      · cases h2
      · simp only [Except.ok.injEq, Prod.mk.injEq] at h2
        exact ⟨h2.1.symm, h2.2.symm⟩

/-- On the §8 scenario, `calculate_far_frr` evaluates to `(1/2, 1/2)`. -/
lemma scn_far_frr : calculate_far_frr scnAuth scnUnauth = Except.ok (1/2, 1/2) := by
  unfold calculate_far_frr
  rw [show farFrrCounts scnAuth scnUnauth = Except.ok (1, 1, 1, 1) from rfl]
  norm_num

/-- Witness for C10 on the spec §8 scenario with a bound global threshold
`1/2`: both functions see the confusion tuple `(1, 1, 1, 1)`. -/
theorem claim_C10_witness :
    farFrrCounts scnAuth scnUnauth = Except.ok (1, 1, 1, 1) :=
  (claim_C10_same_confusion (some (1/2)) scnAuth scnUnauth 1 1 1 1
    (1/2) (1/2) rfl scn_far_frr).1

/-! Lemmas relating the nested append-loops of `verify_multiple_users` to a
monadic map over the flattened query sequence. -/

/-- `pure` of the `Except` monad is the `ok` constructor. -/
lemma pure_eq_ok {ε α : Type} (a : α) : (pure a : Except ε α) = Except.ok a := rfl

/-- `Except` bind on an `ok` value. -/
lemma ok_bind {ε α β : Type} (a : α) (f : α → Except ε β) :
    (Except.ok a >>= f) = f a := rfl

/-- `Except` bind on an `error` value. -/
lemma error_bind {ε α β : Type} (e : ε) (f : α → Except ε β) :
    ((Except.error e : Except ε α) >>= f) = Except.error e := rfl

/-- `mapM` over the empty list in the `Except` monad. -/
lemma mapM_nil_except {ε α β : Type} (f : α → Except ε β) :
    ([] : List α).mapM f = Except.ok [] := rfl

/-- `mapM` over a `map` composes the two functions. -/
lemma mapM_map_except {ε α β γ : Type} (g : α → β) (f : β → Except ε γ) (l : List α) :
    (l.map g).mapM f = l.mapM (fun x => f (g x)) := by
  induction l with
  | nil => rfl
  | cons x t ih =>
    rw [List.map_cons, List.mapM_cons, List.mapM_cons, ih]

/-- Appending an accumulated table to a monadic rest-of-table. -/
def seqAppend {β : Type} (acc : List β) (x : Except PyError (List β)) :
    Except PyError (List β) :=
  match x with
  | Except.error e => Except.error e
  | Except.ok rs => Except.ok (acc ++ rs)

/-- `appendRow` on a raised exception propagates it. -/
lemma appendRow_error (a : List VerificationRecord) (e : PyError) :
    appendRow a (Except.error e) = Except.error e := rfl

/-- `appendRow` on a produced row appends it. -/
lemma appendRow_ok (a : List VerificationRecord) (row : VerificationRecord) :
    appendRow a (Except.ok row) = Except.ok (a ++ [row]) := rfl

/-- `seqAppend` on a raised exception propagates it. -/
lemma seqAppend_error {β : Type} (acc : List β) (e : PyError) :
    seqAppend acc (Except.error e) = Except.error e := rfl

/-- `seqAppend` on a produced table appends it. -/
lemma seqAppend_ok {β : Type} (acc rs : List β) :
    seqAppend acc (Except.ok rs) = Except.ok (acc ++ rs) := rfl

/-- The append-one-row-at-a-time loop over one identity's photos is the
monadic map over those photos, appended to the rows accumulated so far. -/
lemma foldl_append_eq_mapM {α : Type} (f : α → Except PyError VerificationRecord)
    (l : List α) (acc : List VerificationRecord) :
    l.foldlM (fun a x => appendRow a (f x)) acc = seqAppend acc (l.mapM f) := by
  induction l generalizing acc with
  | nil =>
    rw [List.foldlM_nil, mapM_nil_except, seqAppend_ok]
    simp [pure_eq_ok]
  | cons x t ih =>
    rw [List.foldlM_cons, List.mapM_cons]
    cases hfx : f x with
    | error e =>
      rw [appendRow_error, error_bind, error_bind, seqAppend_error]
    | ok r =>
      rw [appendRow_ok, ok_bind, ok_bind, ih (acc ++ [r])]
      cases hmt : t.mapM f with
      | error e => rw [seqAppend_error, error_bind, seqAppend_error]
      | ok rs =>
        rw [seqAppend_ok, ok_bind, pure_eq_ok, seqAppend_ok]
        simp

/-- The whole nested loop of `verify_multiple_users`, started from any
already-accumulated table, is the monadic map over the remaining flattened
queries appended to that table. -/
lemma vmu_foldl_eq_mapM (matcher : String → Except PyError (List MatchRow))
    (incoming_users_path : String) (listing : List (String × List String))
    (acc : List VerificationRecord) :
    listing.foldlM (fun df_users entry =>
      entry.2.foldlM (fun df_users user_photo =>
        appendRow df_users
          (processQuery matcher incoming_users_path (entry.1, user_photo))) df_users) acc =
    seqAppend acc ((flatQueries listing).mapM (processQuery matcher incoming_users_path)) := by
  induction listing generalizing acc with
  | nil =>
    rw [List.foldlM_nil, show flatQueries [] = [] from rfl, mapM_nil_except, seqAppend_ok]
    simp [pure_eq_ok]
  | cons entry t ih =>
    rw [List.foldlM_cons]
    rw [foldl_append_eq_mapM (fun p => processQuery matcher incoming_users_path (entry.1, p))
      entry.2 acc]
    have hflat : flatQueries (entry :: t) =
        entry.2.map (fun p => (entry.1, p)) ++ flatQueries t := rfl
    rw [hflat, List.mapM_append,
      mapM_map_except (fun p => (entry.1, p)) (processQuery matcher incoming_users_path)]
    cases hm1 : entry.2.mapM (fun p => processQuery matcher incoming_users_path (entry.1, p)) with
    | error e => rw [seqAppend_error, error_bind, error_bind, seqAppend_error]
    | ok rs1 =>
      rw [seqAppend_ok, ok_bind, ok_bind, ih (acc ++ rs1)]
      cases hm2 : (flatQueries t).mapM (processQuery matcher incoming_users_path) with
      | error e => rw [seqAppend_error, error_bind, seqAppend_error]
      | ok rs2 =>
        rw [seqAppend_ok, ok_bind, pure_eq_ok, seqAppend_ok]
        simp

/-- C9: `verify_multiple_users` is exactly the monadic map of the per-photo
processing over the flattened query sequence — one `VerificationRecord`
(image path, verdict, distance) per query image, appended in iteration
order: identities in directory-listing order, then each identity's photos in
directory-listing order, with no reordering. -/
theorem claim_C9_one_record_per_query
    (matcher : String → Except PyError (List MatchRow))
    (incoming_users_path : String) (listing : List (String × List String)) :
    verify_multiple_users matcher incoming_users_path listing =
      (flatQueries listing).mapM (processQuery matcher incoming_users_path) := by
  unfold verify_multiple_users
  rw [vmu_foldl_eq_mapM]
  cases hm : (flatQueries listing).mapM (processQuery matcher incoming_users_path) with
  | error e => rw [seqAppend_error]
  | ok rs =>
    rw [seqAppend_ok]
    simp

/-- A matcher that raises (e.g. an unreadable image) on exactly one photo of
the batch and finds no match on every other photo. -/
def crashingMatcher : String → Except PyError (List MatchRow) := fun p =>
  if p = "root/1/a.jpg" then Except.error PyError.matcherError else Except.ok []

/-- C8, counterexample: a matcher failure on the single query `1/a.jpg`
aborts the whole batch — `verify_multiple_users` returns the propagated
exception instead of a denied/infinite record plus the remaining records
(there is no try/except in the loop), even though the matcher would have
succeeded on the rest of the batch (second conjunct). -/
theorem claim_C8_counterexample :
    verify_multiple_users crashingMatcher "root" [("1", ["a.jpg", "b.jpg"])] =
      Except.error PyError.matcherError
    ∧ crashingMatcher "root/1/b.jpg" = Except.ok [] := ⟨rfl, rfl⟩

/-- C8, amended: a query on which the matcher *returns the empty result set*
(no face detected / no match under the threshold — the shape DeepFace's
`enforce_detection=False` produces) degrades to a denied, infinite-distance
record that is appended in place, and the batch continues with the remaining
queries; only an exception raised by the matcher aborts the batch. -/
theorem claim_C8_empty_result_degrades
    (matcher : String → Except PyError (List MatchRow))
    (incoming_users_path user_name user_photo : String)
    (listing : List (String × List String)) (recs : List VerificationRecord)
    (hm : matcher (joinPath (joinPath incoming_users_path user_name) user_photo) =
      Except.ok [])
    (hrest : verify_multiple_users matcher incoming_users_path listing =
      Except.ok recs) :
    verify_multiple_users matcher incoming_users_path
        ((user_name, [user_photo]) :: listing) =
      Except.ok (⟨joinPath (joinPath incoming_users_path user_name) user_photo,
        false, Dist.inf⟩ :: recs) := by
  have hq : processQuery matcher incoming_users_path (user_name, user_photo) =
      Except.ok ⟨joinPath (joinPath incoming_users_path user_name) user_photo,
        false, Dist.inf⟩ := by
    unfold processQuery verifyUserFull
    simp only [hm]
    rfl
  unfold verify_multiple_users at hrest ⊢
  rw [vmu_foldl_eq_mapM] at hrest ⊢
  have hflat : flatQueries ((user_name, [user_photo]) :: listing) =
      (user_name, user_photo) :: flatQueries listing := rfl
  rw [hflat, List.mapM_cons, hq, ok_bind]
  cases hm2 : (flatQueries listing).mapM (processQuery matcher incoming_users_path) with
  | error e =>
    rw [hm2, seqAppend_error] at hrest
    cases hrest
  | ok rs =>
    rw [hm2, seqAppend_ok] at hrest
    simp only [List.nil_append, Except.ok.injEq] at hrest
    subst hrest
    rw [ok_bind, pure_eq_ok, seqAppend_ok]
    simp

/-- Witness for C8 (amended): a two-photo batch where the matcher finds no
face on the first photo and a correct match on the second; the first becomes
a denied/infinite record and the second is still processed. -/
theorem claim_C8_witness :
    verify_multiple_users
      (fun p =>
        if p = "root/1/b.jpg"
        then Except.ok [⟨["data", "database", "authorized_users", "1", "x.jpg"], 1/4⟩]
        else Except.ok [])
      "root" [("1", ["a.jpg"]), ("1", ["b.jpg"])] =
      Except.ok [⟨"root/1/a.jpg", false, Dist.inf⟩,
        ⟨"root/1/b.jpg", true, Dist.val (1/4)⟩] :=
  claim_C8_empty_result_degrades
    (fun p =>
      if p = "root/1/b.jpg"
      then Except.ok [⟨["data", "database", "authorized_users", "1", "x.jpg"], 1/4⟩]
      else Except.ok [])
    "root" "1" "a.jpg" [("1", ["b.jpg"])]
    [⟨"root/1/b.jpg", true, Dist.val (1/4)⟩] rfl rfl

end VerificationSystem
